import Mathlib

/-!
# Verification of the payroll-analysis engine of `app3.py`

Shallow embedding of the core functions of `src/app3.py` (the
"Analisador de Contracheques - SEAD / AMAZONPREV" application):
currency parsing/formatting, raw-table normalization, page-date
resolution, rubric fuzzy matching and the overpayment ("indébito")
calculator.  Tables (pandas DataFrames) are modelled as a list of
column names plus rows of string cells; Python floats are modelled as
exact decimal values (an integer numerator over a positive power-of-ten
denominator), so machine rounding noise is abstracted away while every
parse/format decision of the source is kept.
-/

set_option autoImplicit false

/-- Python `str.strip()`: drop leading and trailing whitespace.  Modelled
with `Char.isWhitespace` (space, tab, CR, LF); Python additionally strips
a few rarer control characters, which never occur in the strings handled
by this program. -/
def pyStrip (s : String) : String :=
  String.mk (((s.toList.dropWhile Char.isWhitespace).reverse.dropWhile Char.isWhitespace).reverse)

/-- Split a character list on a separator character, Python
`str.split(sep)` semantics: the empty list yields one empty field, and a
trailing separator yields a trailing empty field. -/
def splitOnChar (sep : Char) : List Char → List (List Char)
  | [] => [[]]
  | c :: cs =>
    if c = sep then [] :: splitOnChar sep cs
    else
      match splitOnChar sep cs with
      | [] => [[c]]
      | l :: ls => (c :: l) :: ls

/-- Python `s.split('\n')` on a string, returning strings. -/
def splitNewlines (s : String) : List String :=
  (splitOnChar '\n' s.toList).map (fun cs => String.mk cs)

/-- An exact decimal value: `num / den` with `den` a positive power of
ten by construction.  This models the Python floats flowing through the
program (all of which are parsed from decimal strings) without binary
rounding noise. -/
structure DecVal where
  num : Int
  den : Int
deriving DecidableEq, Repr

/-- Exact addition of decimal values (no normalization needed). -/
def DecVal.add (a b : DecVal) : DecVal :=
  ⟨a.num * b.den + b.num * a.den, a.den * b.den⟩

/-- Exact subtraction of decimal values. -/
def DecVal.sub (a b : DecVal) : DecVal :=
  ⟨a.num * b.den - b.num * a.den, a.den * b.den⟩

/-- Multiplication by an integer scalar (the `2 * indebito` step). -/
def DecVal.scale (k : Int) (a : DecVal) : DecVal :=
  ⟨k * a.num, a.den⟩

/-- Exact division by a positive integer (the `/ 100` cents shift). -/
def DecVal.divInt (a : DecVal) (k : Int) : DecVal :=
  ⟨a.num, a.den * k⟩

/-- Value of a list of ASCII digit characters, most significant first. -/
def digitsToInt (cs : List Char) : Int :=
  cs.foldl (fun a c => 10 * a + ((c.toNat : Int) - 48)) 0

/-- Python `float(s)` restricted to plain decimal literals: optional
surrounding whitespace, optional sign, digits with at most one dot and
at least one digit.  `none` models `ValueError`.  The exotic forms
Python also accepts (exponents, `inf`, `nan`, underscores, non-ASCII
digits) never reach the call sites of this program. -/
def pyFloat? (s : String) : Option DecVal :=
  let t := (pyStrip s).toList
  let signBody : Int × List Char :=
    match t with
    | '-' :: rest => (-1, rest)
    | '+' :: rest => (1, rest)
    | _ => (1, t)
  match splitOnChar '.' signBody.2 with
  | [ds] =>
    if ds ≠ [] ∧ ds.all Char.isDigit = true then
      some ⟨signBody.1 * digitsToInt ds, 1⟩
    else none
  | [ipart, fpart] =>
    if (ipart ++ fpart) ≠ [] ∧ (ipart ++ fpart).all Char.isDigit = true then
      some ⟨signBody.1 * digitsToInt (ipart ++ fpart), 10 ^ fpart.length⟩
    else none
  | _ => none

/-- `str.replace(',', '.')` (single-character replacement). -/
def replaceCommaDot (s : String) : String :=
  String.mk (s.toList.map (fun c => if c = ',' then '.' else c))

/-- `_to_float` from `inserir_totais_na_coluna` (app3.py lines 345-349):
`float(str(x).replace(',', '.').strip())`, with `0.0` on any parse
failure. -/
def to_float (x : String) : DecVal :=
  match pyFloat? (replaceCommaDot x) with
  | some v => v
  | none => ⟨0, 1⟩

/-- Rounded cents of a decimal value: nearest integer to `100 * v`,
halves rounded up.  This models rounding a value to two decimal places
as done by Python's `f"{x:,.2f}"` (whose tie direction on exact
half-cents depends on the binary float; ties are irrelevant at every
use in this development since both sides of each theorem use this same
function). -/
def roundCents (v : DecVal) : Int :=
  Int.fdiv (200 * v.num + v.den) (2 * v.den)

/-- Group the digits of a decimal-digit string in threes with commas,
as the thousands grouping of Python `f"{x:,.2f}"` does. -/
def chunk3 : List Char → List (List Char)
  | [] => []
  | [a] => [[a]]
  | [a, b] => [[a, b]]
  | a :: b :: c :: rest => [a, b, c] :: chunk3 rest

/-- Insert `,` thousands separators into a digit string. -/
def groupThousands (s : String) : String :=
  String.mk ((((chunk3 s.toList.reverse).intersperse [',']).flatten).reverse)

/-- Render a natural number below 100 with exactly two digits. -/
def twoDigits (n : Nat) : String :=
  (if n < 10 then "0" else "") ++ Nat.repr n

/-- Python `f"{x:,.2f}"`: US-convention rendering with `,` thousands
separators, `.` decimal separator and exactly two decimal places. -/
def formatUS (v : DecVal) : String :=
  let cents := roundCents v
  (if cents < 0 then "-" else "") ++
    groupThousands (Nat.repr (cents.natAbs / 100)) ++ "." ++ twoDigits (cents.natAbs % 100)

/-- The separator swap
`.replace(",", "X").replace(".", ",").replace("X", ".")` of
`formatar_valor_brl` (app3.py line 109): since the formatted input never
contains `X`, the chain is a simultaneous swap of `,` and `.`. -/
def toBRL (s : String) : String :=
  String.mk (s.toList.map (fun c => if c = ',' then '.' else if c = '.' then ',' else c))

/-- `valor.replace(",", "").replace(".", "")` (app3.py line 108): strip
every comma and dot. -/
def stripSeparators (s : String) : String :=
  String.mk (s.toList.filter (fun c => c != ',' && c != '.'))

/-- The PT-BR numeric formatter of the source, as a function of the
numeric value: `f"{flt:,.2f}".replace(",", "X").replace(".", ",").replace("X", ".")`
(app3.py line 109). -/
def format_brl_num (v : DecVal) : String :=
  toBRL (formatUS v)

/-- `formatar_valor_brl` (app3.py lines 103-111): cents-shift parse of a
pre-rendered numeric string (strip all separators, read as integer
cents, divide by 100) followed by PT-BR two-decimal formatting; on any
parse failure the input is returned unchanged. -/
def formatar_valor_brl (valor : String) : String :=
  match pyFloat? (stripSeparators valor) with
  | some v => format_brl_num (v.divInt 100)
  | none => valor

/-- A pandas DataFrame of strings, as produced by Camelot and consumed
by the engine: ordered column names and rows of cells, each row aligned
positionally with `cols`. -/
structure DF where
  cols : List String
  rows : List (List String)
deriving DecidableEq, Repr

/-- Look up a row's cell by column name (`row[col]` in pandas): the cell
aligned with the first column of that name, or `""` when the column is
absent.  Column names are distinct in every table of this program. -/
def getCell : List String → List String → String → String
  | c :: cs, v :: vs, name => if c = name then v else getCell cs vs name
  | _, _, _ => ""

/-- Expansion of one data row by `_separar_linhas_multiplas` (app3.py
lines 171-185): split every cell on embedded line breaks, let the row
fan out to the maximal segment count, and give output row `i` each
cell's `i`-th segment stripped, or `""` when that cell has fewer
segments.  The source computes the maximum `max_splits` with Python
`max` over the per-cell counts, defined since its tables always have
columns; the `foldl max 0` here agrees with it on every nonempty row
because each split yields at least one segment. -/
def maxSegs (row : List String) : Nat :=
  (row.map (fun s => (splitNewlines s).length)).foldl max 0

/-- The fan-out itself: output row `i` takes each cell's `i`-th segment
stripped (`partes[i].strip() if i < len(partes) else ''`). -/
def expandRow (row : List String) : List (List String) :=
  let colSplit := row.map (fun s => splitNewlines s)
  (List.range (maxSegs row)).map (fun i =>
    colSplit.map (fun partes =>
      if h : i < partes.length then pyStrip (partes.get ⟨i, h⟩) else ""))

/-- `_separar_linhas_multiplas` on a whole table. -/
def separar_linhas_multiplas (df : DF) : DF :=
  ⟨df.cols, (df.rows.map expandRow).flatten⟩

/-- Index of the first row containing a cell exactly equal to
`"DESCRIÇÃO"`, the header-location step of
`processar_contracheques_camelot` (app3.py lines 208-210):
`df[df.isin(["DESCRIÇÃO"]).any(axis=1)].index[0]`, guarded by
`"DESCRIÇÃO" in df.values`. -/
def headerIdx? : List (List String) → Option Nat
  | [] => none
  | r :: rs =>
    if r.contains "DESCRIÇÃO" then some 0
    else (headerIdx? rs).map (fun i => i + 1)

/-- The canonical column names assigned positionally (app3.py line 212). -/
def canonNames : List String :=
  ["Descrição", "PVD", "COD", "BASE", "VALOR UNITÁRIO", "TOTAL"]

/-- pandas `df.columns = names`: succeeds only when the name list has
exactly one name per column, otherwise raises `ValueError` (modelled as
`Except.error`). -/
def setColumns (names : List String) (df : DF) : Except String DF :=
  if names.length = df.cols.length then Except.ok ⟨names, df.rows⟩
  else Except.error "Length mismatch"

/-- The per-table body processing of `processar_contracheques_camelot`
after the header row and everything above it were discarded (app3.py
lines 211-222): require at least 6 columns (otherwise `continue`,
modelled as `Except.ok none`), assign the canonical names truncated to
the column count (`[...][:df.shape[1]]`), expand multi-line rows, then
append the `Competência` provenance column and insert the `DATA` column
at position 0.  `Except.error` models an uncaught pandas exception,
which the enclosing `try` of the whole function turns into `None` for
the entire document. -/
def processBody (body : DF) (page : Nat) (dataEncontrada : String) : Except String (Option DF) :=
  if 6 ≤ body.cols.length then
    match setColumns (canonNames.take body.cols.length) body with
    | Except.error e => Except.error e
    | Except.ok named =>
      let expanded := separar_linhas_multiplas named
      let comComp : DF :=
        ⟨expanded.cols ++ ["Competência"],
         expanded.rows.map (fun r => r ++ ["Página " ++ Nat.repr page])⟩
      Except.ok (some ⟨"DATA" :: comComp.cols, comComp.rows.map (fun r => dataEncontrada :: r)⟩)
  else Except.ok none

/-- Processing of one extracted table by `processar_contracheques_camelot`
(app3.py lines 205-223): locate the `"DESCRIÇÃO"` header row (if absent
the table contributes nothing), discard it and everything above it, and
hand the remaining rows to `processBody`.  The final multi-table
concatenation and four-column projection (lines 223-227) carry no claim
and are not modelled. -/
def processTable (df : DF) (page : Nat) (dataEncontrada : String) : Except String (Option DF) :=
  match headerIdx? df.rows with
  | none => Except.ok none
  | some idx => processBody ⟨df.cols, df.rows.drop (idx + 1)⟩ page dataEncontrada

/-- The four summary-row description markers appended by
`inserir_totais_na_coluna` (app3.py lines 396-401). -/
def marcadores : List String :=
  ["A = Valor Total (R$)", "B = Valor Recebido - Autor (a)",
   "Indébito (A-B)", "Indébito em dobro (R$)"]

/-- The cleanup loop of `inserir_totais_na_coluna` (app3.py lines
402-404) applied to one row: every cell whose column is neither
`"DESCRIÇÃO"` nor the amount column is overwritten with `""`. -/
def blankRow (colValor : String) : List String → List String → List String
  | c :: cs, v :: vs =>
    (if c = "DESCRIÇÃO" ∨ c = colValor then v else "") :: blankRow colValor cs vs
  | _, vs => vs

/-- `df_novo.loc[mask_especial, c] = ""` for every other column `c`
(app3.py lines 395-404): rows whose description equals one of the four
markers are blanked outside the description and amount columns; all
other rows are untouched. -/
def blankEspeciais (cols : List String) (colValor : String) (row : List String) : List String :=
  if marcadores.contains (getCell cols row "DESCRIÇÃO") then blankRow colValor cols row
  else row

/-- A freshly appended summary row as it stands after the cleanup loop:
the marker in the `DESCRIÇÃO` column, the formatted amount in the
amount column, `""` everywhere else (`pd.concat` leaves the unlisted
columns of the new row null and lines 402-404 blank them). -/
def summaryRow (cols : List String) (colValor desc val : String) : List String :=
  cols.map (fun c => if c = "DESCRIÇÃO" then desc else if c = colValor then val else "")

/-- `df[col_valor].apply(_to_float).sum()` (app3.py line 352). -/
def somaCol (df : DF) (colValor : String) : DecVal :=
  df.rows.foldl (fun a r => a.add (to_float (getCell df.cols r colValor))) ⟨0, 1⟩

/-- `inserir_totais_na_coluna` (app3.py lines 333-406): sum the amount
column with the arithmetic parse; if the sum is zero return the table
unchanged; otherwise read the received amount `B` (empty input falls
back to `"0"` through the `or "0"` on line 357; parse failure to 0.0),
compute `indébito = A - B` and its double, append the four summary rows
in fixed order, and blank every marker-described row outside the
description and amount columns.  The received-amount string is shown as
supplied (stripped), not reformatted.  Modelled for tables that carry
both a `DESCRIÇÃO` and the amount column, as at the only call site. -/
def inserir_totais_na_coluna (df : DF) (colValor valorRecebido : String) : DF :=
  let soma := somaCol df colValor
  if soma.num = 0 then df
  else
    let vrStr := if valorRecebido = "" then "0" else valorRecebido
    let b := to_float vrStr
    let indebito := soma.sub b
    let indebitoDobro := DecVal.scale 2 indebito
    let novas := [("A = Valor Total (R$)", formatUS soma),
                  ("B = Valor Recebido - Autor (a)", pyStrip vrStr),
                  ("Indébito (A-B)", formatUS indebito),
                  ("Indébito em dobro (R$)", formatUS indebitoDobro)]
    ⟨df.cols,
     (df.rows ++ novas.map (fun p => summaryRow df.cols colValor p.1 p.2)).map
       (blankEspeciais df.cols colValor)⟩

/-- The special-row test of `PDFFinais.montar_tabela` (app3.py lines
470-476): a row is rendered with the red bold summary styling exactly
when its description equals one of the four marker strings. -/
def pdfFinaisEspecial (desc : String) : Bool :=
  ["A = Valor Total (R$)", "B = Valor Recebido - Autor (a)",
   "Indébito (A-B)", "Indébito em dobro (R$)"].contains desc

/-- Match of the `MM/AAAA` pattern `\d{2}/\d{4}` at the head of a
character list: two digits, a slash, four digits (app3.py line 165).
Python's `\d` also accepts non-ASCII decimal digits, which do not occur
in the extracted page texts; ASCII digits are modelled. -/
def takeMMYYYY : List Char → Option String
  | a :: b :: s :: c :: d :: e :: f :: _ =>
    if a.isDigit && b.isDigit && s = '/' && c.isDigit && d.isDigit && e.isDigit && f.isDigit then
      some (String.mk [a, b, '/', c, d, e, f])
    else none
  | _ => none

/-- Leftmost search for the pattern, `re.search` semantics: try every
start position from the left, first hit wins. -/
def searchMMYYYY : List Char → Option String
  | [] => none
  | c :: cs =>
    match takeMMYYYY (c :: cs) with
    | some s => some s
    | none => searchMMYYYY cs

/-- `extrair_data_da_pagina` (app3.py lines 157-168) on the extracted
text of one page: the first substring matching `\d{2}/\d{4}`, or the
sentinel `"N/D"` when there is none.  (The PDF plumbing around it -
opening the file and bounds-checking the page number, which also yields
`"N/D"` - is outside the page-text semantics the claims are about.) -/
def extrair_data_da_pagina (text : String) : String :=
  match searchMMYYYY text.toList with
  | some s => s
  | none => "N/D"

/-- Edit distance with unit insert/delete cost and substitution cost 2,
the distance underlying the normalized similarity of the external
fuzzy-matching library used on line 669 of app3.py (`fuzz.ratio`, an
external collaborator; the spec describes it as a normalized
edit-distance ratio, 0-100, 100 = identical). -/
def lev2Fuel : Nat → List Char → List Char → Nat
  | 0, _, _ => 0
  | _ + 1, [], ys => ys.length
  | _ + 1, xs, [] => xs.length
  | fuel + 1, x :: xs', y :: ys' =>
    min (1 + lev2Fuel fuel xs' (y :: ys'))
      (min (1 + lev2Fuel fuel (x :: xs') ys') ((if x = y then 0 else 2) + lev2Fuel fuel xs' ys'))

/-- The distance itself; `xs.length + ys.length` steps of fuel always
suffice, since every recursive call drops at least one character. -/
def lev2 (xs ys : List Char) : Nat :=
  lev2Fuel (xs.length + ys.length) xs ys

/-- The similarity scorer passed to the matcher
(`scorer=fuzz.ratio`): `round(100 * (la + lb - dist) / (la + lb))`,
with 100 for two empty strings.  Modelled from the library's documented
behaviour (a normalized edit-distance ratio); the library's optional
pre-processing normalizes both strings identically and is not
modelled. -/
def fuzzScore (a b : String) : Nat :=
  let n := a.toList.length + b.toList.length
  if n = 0 then 100
  else ((n - lev2 a.toList b.toList) * 200 + n) / (2 * n)

/-- Best similarity of a query against a vocabulary list. -/
def bestScore (q : String) : List String → Nat
  | [] => 0
  | r :: rs => max (fuzzScore q r) (bestScore q rs)

/-- `process.extractOne(desc, rubricas, scorer=fuzz.ratio)` (app3.py
line 669): `None` on an empty choice list, otherwise the leftmost
choice of maximal score together with its score. -/
def extractOne (q : String) : List String → Option (String × Nat)
  | [] => none
  | r :: rs =>
    match extractOne q rs with
    | none => some (r, fuzzScore q r)
    | some p => if fuzzScore q r ≥ p.2 then some (r, fuzzScore q r) else some p

/-- `cruzar_descontos_com_rubricas` (app3.py lines 658-673): empty
input table or empty vocabulary yield an empty DataFrame; otherwise
every distinct description is scored once against the whole vocabulary
(`mapping`), and the boolean mask keeps exactly the rows whose
description reached the threshold.  The per-distinct-description cache
is extensionally the row-wise predicate used here. -/
def cruzar_descontos_com_rubricas (df : DF) (rubricas : List String) (threshold : Nat) : DF :=
  if df.rows.isEmpty || rubricas.isEmpty then ⟨[], []⟩
  else
    ⟨df.cols,
     df.rows.filter (fun r =>
       match extractOne (getCell df.cols r "DESCRIÇÃO") rubricas with
       | some p => decide (threshold ≤ p.2)
       | none => false)⟩

/-! ## Helper lemmas -/

theorem getCell_summaryRow (cols : List String) (colValor d v c : String)
    (h1 : c ≠ "DESCRIÇÃO") (h2 : c ≠ colValor) :
    getCell cols (summaryRow cols colValor d v) c = "" := by
  induction cols with
  | nil => rfl
  | cons a as ih =>
    simp only [summaryRow, List.map_cons, getCell]
    by_cases h : a = c
    · subst h
      rw [if_pos rfl, if_neg h1, if_neg h2]
    · rw [if_neg h]
      exact ih

theorem blankRow_summaryRow (cols : List String) (colValor d v : String) :
    blankRow colValor cols (summaryRow cols colValor d v) = summaryRow cols colValor d v := by
  induction cols with
  | nil => rfl
  | cons a as ih =>
    simp only [summaryRow, List.map_cons, blankRow]
    refine congrArg₂ (· :: ·) ?_ ih
    by_cases hd : a = "DESCRIÇÃO"
    · rw [if_pos (Or.inl hd)]
    · by_cases hv : a = colValor
      · rw [if_pos (Or.inr hv)]
      · rw [if_neg (by simp [hd, hv]), if_neg hd, if_neg hv]

theorem blankEspeciais_summaryRow (cols : List String) (colValor d v : String) :
    blankEspeciais cols colValor (summaryRow cols colValor d v) = summaryRow cols colValor d v := by
  unfold blankEspeciais
  split
  · exact blankRow_summaryRow cols colValor d v
  · rfl

theorem getCell_blankRow (cols : List String) (colValor : String) (row : List String)
    (c : String) (h1 : c ≠ "DESCRIÇÃO") (h2 : c ≠ colValor) :
    getCell cols (blankRow colValor cols row) c = "" := by
  induction cols generalizing row with
  | nil =>
    cases row <;> rfl
  | cons a as ih =>
    cases row with
    | nil => rfl
    | cons v vs =>
      simp only [blankRow, getCell]
      by_cases h : a = c
      · subst h
        rw [if_pos rfl, if_neg (by simp [h1, h2])]
      · rw [if_neg h]
        exact ih vs

theorem inserir_rows_eq (df : DF) (colValor valorRecebido : String)
    (h : (somaCol df colValor).num ≠ 0) :
    (inserir_totais_na_coluna df colValor valorRecebido).rows =
      df.rows.map (blankEspeciais df.cols colValor) ++
        [summaryRow df.cols colValor "A = Valor Total (R$)" (formatUS (somaCol df colValor)),
         summaryRow df.cols colValor "B = Valor Recebido - Autor (a)"
           (pyStrip (if valorRecebido = "" then "0" else valorRecebido)),
         summaryRow df.cols colValor "Indébito (A-B)"
           (formatUS ((somaCol df colValor).sub
             (to_float (if valorRecebido = "" then "0" else valorRecebido)))),
         summaryRow df.cols colValor "Indébito em dobro (R$)"
           (formatUS (DecVal.scale 2 ((somaCol df colValor).sub
             (to_float (if valorRecebido = "" then "0" else valorRecebido)))))] := by
  unfold inserir_totais_na_coluna
  rw [if_neg h]
  simp [List.map_append, blankEspeciais_summaryRow]

/-! ## Claim theorems: SelectionCalculator -/

/-- C2: for every selection whose totals sum to a nonzero A and every
received amount B, `inserir_totais_na_coluna` appends exactly four
summary rows in the fixed order A = Valor Total (R$), B = Valor
Recebido - Autor (a), Indébito (A-B), Indébito em dobro (R$); the
Indébito row carries A − B and the dobro row carries 2 × (A − B)
(genuine subtraction, so negative values are preserved, with no
flooring at zero), and every field of each summary row is blank except
the description marker and the amount. -/
theorem inserir_totais_summary_spec (df : DF) (colValor valorRecebido : String)
    (h : (somaCol df colValor).num ≠ 0) :
    (inserir_totais_na_coluna df colValor valorRecebido).rows =
      df.rows.map (blankEspeciais df.cols colValor) ++
        [summaryRow df.cols colValor "A = Valor Total (R$)" (formatUS (somaCol df colValor)),
         summaryRow df.cols colValor "B = Valor Recebido - Autor (a)"
           (pyStrip (if valorRecebido = "" then "0" else valorRecebido)),
         summaryRow df.cols colValor "Indébito (A-B)"
           (formatUS ((somaCol df colValor).sub
             (to_float (if valorRecebido = "" then "0" else valorRecebido)))),
         summaryRow df.cols colValor "Indébito em dobro (R$)"
           (formatUS (DecVal.scale 2 ((somaCol df colValor).sub
             (to_float (if valorRecebido = "" then "0" else valorRecebido)))))] ∧
    ∀ d v c, c ≠ "DESCRIÇÃO" → c ≠ colValor →
      getCell df.cols (summaryRow df.cols colValor d v) c = "" :=
  ⟨inserir_rows_eq df colValor valorRecebido h,
   fun d v c h1 h2 => getCell_summaryRow df.cols colValor d v c h1 h2⟩

theorem inserir_totais_summary_spec_witness :
    (inserir_totais_na_coluna ⟨["COD", "DESCRIÇÃO", "DESCONTOS", "DATA"],
        [["1", "X", "30,00", "01/2020"]]⟩ "DESCONTOS" "50,00").rows =
      [["1", "X", "30,00", "01/2020"],
       ["", "A = Valor Total (R$)", "30.00", ""],
       ["", "B = Valor Recebido - Autor (a)", "50,00", ""],
       ["", "Indébito (A-B)", "-20.00", ""],
       ["", "Indébito em dobro (R$)", "-40.00", ""]] := by
  rw [(inserir_totais_summary_spec ⟨["COD", "DESCRIÇÃO", "DESCONTOS", "DATA"],
        [["1", "X", "30,00", "01/2020"]]⟩ "DESCONTOS" "50,00" (by decide)).1]
  decide

/-- C3: for every input table whose amount column sums to zero under the
arithmetic parse (each unparseable total contributing 0.0),
`inserir_totais_na_coluna` returns the input unchanged and appends no
summary rows. -/
theorem inserir_totais_zero_spec (df : DF) (colValor valorRecebido : String)
    (h : (somaCol df colValor).num = 0) :
    inserir_totais_na_coluna df colValor valorRecebido = df := by
  unfold inserir_totais_na_coluna
  rw [if_pos h]

theorem inserir_totais_zero_spec_witness :
    inserir_totais_na_coluna ⟨["DESCRIÇÃO", "DESCONTOS"], [["x", "abc"]]⟩ "DESCONTOS" "9,99"
      = ⟨["DESCRIÇÃO", "DESCONTOS"], [["x", "abc"]]⟩ :=
  inserir_totais_zero_spec ⟨["DESCRIÇÃO", "DESCONTOS"], [["x", "abc"]]⟩ "DESCONTOS" "9,99"
    (by decide)

/-- C10: summary rows are identified purely by string equality of the
description with the four marker strings: when the summary rows are
appended (nonzero sum), a pre-existing data row whose description
already equals a marker has every field except the description and the
amount column overwritten with empty strings and is flagged for summary
styling by the renderer's test, while every other input row passes
through with all fields unchanged. -/
theorem inserir_totais_marker_rows (df : DF) (colValor valorRecebido : String)
    (h : (somaCol df colValor).num ≠ 0) (i : Nat) (hi : i < df.rows.length) :
    (marcadores.contains (getCell df.cols (df.rows.getD i []) "DESCRIÇÃO") = false →
      (inserir_totais_na_coluna df colValor valorRecebido).rows.getD i [] =
        df.rows.getD i []) ∧
    (marcadores.contains (getCell df.cols (df.rows.getD i []) "DESCRIÇÃO") = true →
      (inserir_totais_na_coluna df colValor valorRecebido).rows.getD i [] =
        blankRow colValor df.cols (df.rows.getD i []) ∧
      (∀ c, c ≠ "DESCRIÇÃO" → c ≠ colValor →
        getCell df.cols
          ((inserir_totais_na_coluna df colValor valorRecebido).rows.getD i []) c = "") ∧
      pdfFinaisEspecial (getCell df.cols (df.rows.getD i []) "DESCRIÇÃO") = true) := by
  have hi' : i < (df.rows.map (blankEspeciais df.cols colValor)).length := by
    simpa using hi
  have hsome : df.rows[i]? = some (df.rows.getD i []) := by
    rw [List.getElem?_eq_getElem hi, List.getD_eq_getElem?_getD, List.getElem?_eq_getElem hi]
    rfl
  have hget : (inserir_totais_na_coluna df colValor valorRecebido).rows.getD i [] =
      blankEspeciais df.cols colValor (df.rows.getD i []) := by
    rw [inserir_rows_eq df colValor valorRecebido h, List.getD_eq_getElem?_getD,
      List.getElem?_append_left hi', List.getElem?_map, hsome]
    rfl
  rw [hget]
  unfold blankEspeciais
  cases hb : marcadores.contains (getCell df.cols (df.rows.getD i []) "DESCRIÇÃO") with
  | false =>
    refine ⟨fun _ => by simp, fun hx => Bool.noConfusion hx⟩
  | true =>
    refine ⟨fun hx => Bool.noConfusion hx, fun _ => ⟨by simp, ?_, ?_⟩⟩
    · intro c h1 h2
      rw [if_pos rfl]
      exact getCell_blankRow df.cols colValor (df.rows.getD i []) c h1 h2
    · exact hb

theorem inserir_totais_marker_rows_witness :
    (inserir_totais_na_coluna ⟨["COD", "DESCRIÇÃO", "DESCONTOS", "DATA"],
        [["9", "Indébito (A-B)", "10,00", "02/2020"]]⟩ "DESCONTOS" "1,00").rows.getD 0 []
      = blankRow "DESCONTOS" ["COD", "DESCRIÇÃO", "DESCONTOS", "DATA"]
          ["9", "Indébito (A-B)", "10,00", "02/2020"] :=
  ((inserir_totais_marker_rows ⟨["COD", "DESCRIÇÃO", "DESCONTOS", "DATA"],
      [["9", "Indébito (A-B)", "10,00", "02/2020"]]⟩ "DESCONTOS" "1,00"
      (by decide) 0 (by decide)).2 (by decide)).1

/-! ## Claim theorems: RawTableNormalizer and PageDateResolver -/

theorem headerIdx?_none_iff (rows : List (List String)) :
    headerIdx? rows = none ↔ ∀ r ∈ rows, "DESCRIÇÃO" ∉ r := by
  induction rows with
  | nil => simp [headerIdx?]
  | cons r rs ih =>
    by_cases h : "DESCRIÇÃO" ∈ r
    · simp [headerIdx?, h]
    · simp [headerIdx?, h, Option.map_eq_none', ih]

theorem headerIdx?_some_spec (rows : List (List String)) (idx : Nat)
    (h : headerIdx? rows = some idx) :
    idx < rows.length ∧ "DESCRIÇÃO" ∈ rows.getD idx [] ∧
      ∀ j, j < idx → "DESCRIÇÃO" ∉ rows.getD j [] := by
  induction rows generalizing idx with
  | nil => simp [headerIdx?] at h
  | cons r rs ih =>
    by_cases hc : "DESCRIÇÃO" ∈ r
    · have hz : headerIdx? (r :: rs) = some 0 := by simp [headerIdx?, hc]
      rw [hz] at h
      obtain rfl := (Option.some.inj h).symm
      exact ⟨Nat.succ_pos _, by simpa using hc, fun j hj => absurd hj (Nat.not_lt_zero j)⟩
    · have hrw : headerIdx? (r :: rs) = (headerIdx? rs).map (fun i => i + 1) := by
        simp [headerIdx?, hc]
      rw [hrw] at h
      obtain ⟨idx2, h2, rfl⟩ := Option.map_eq_some'.mp h
      obtain ⟨hlt, hat, hbefore⟩ := ih idx2 h2
      refine ⟨Nat.succ_lt_succ hlt, by simpa using hat, ?_⟩
      intro j hj
      cases j with
      | zero => simpa using hc
      | succ j2 => simpa using hbefore j2 (Nat.lt_of_succ_lt_succ hj)

/-- C8: for every extracted table, the normalizer takes as header the
first row containing a cell exactly equal to `"DESCRIÇÃO"`
(case-sensitive), discards that row and everything above it, and when
no such cell exists the table yields no items (a silent skip, not an
error). -/
theorem processTable_header_spec (df : DF) (page : Nat) (d : String) :
    (headerIdx? df.rows = none ↔ ∀ r ∈ df.rows, "DESCRIÇÃO" ∉ r) ∧
    (headerIdx? df.rows = none → processTable df page d = Except.ok none) ∧
    (∀ idx, headerIdx? df.rows = some idx →
      idx < df.rows.length ∧
      "DESCRIÇÃO" ∈ df.rows.getD idx [] ∧
      (∀ j, j < idx → "DESCRIÇÃO" ∉ df.rows.getD j []) ∧
      processTable df page d = processBody ⟨df.cols, df.rows.drop (idx + 1)⟩ page d) := by
  refine ⟨headerIdx?_none_iff df.rows, ?_, ?_⟩
  · intro h
    simp [processTable, h]
  · intro idx h
    obtain ⟨hlt, hat, hbefore⟩ := headerIdx?_some_spec df.rows idx h
    exact ⟨hlt, hat, hbefore, by simp [processTable, h]⟩

theorem processTable_header_spec_witness :
    processTable ⟨["0"], [["a"], ["b", "DESCRIÇÃO"], ["DESCRIÇÃO"], ["z"]]⟩ 3 "04/2021"
      = processBody ⟨["0"], [["DESCRIÇÃO"], ["z"]]⟩ 3 "04/2021" :=
  ((processTable_header_spec ⟨["0"], [["a"], ["b", "DESCRIÇÃO"], ["DESCRIÇÃO"], ["z"]]⟩
      3 "04/2021").2.2 1 (by decide)).2.2.2

theorem searchMMYYYY_eq_none (cs : List Char)
    (h : ∀ i, takeMMYYYY (cs.drop i) = none) : searchMMYYYY cs = none := by
  induction cs with
  | nil => rfl
  | cons c cs ih =>
    have h0 : takeMMYYYY (c :: cs) = none := h 0
    simp only [searchMMYYYY, h0]
    exact ih (fun i => h (i + 1))

theorem searchMMYYYY_first (cs : List Char) (i : Nat) (s : String)
    (hf : ∀ j, j < i → takeMMYYYY (cs.drop j) = none)
    (hm : takeMMYYYY (cs.drop i) = some s) : searchMMYYYY cs = some s := by
  induction cs generalizing i with
  | nil =>
    rw [List.drop_nil] at hm
    exact absurd hm (by simp [takeMMYYYY])
  | cons c cs ih =>
    cases i with
    | zero =>
      rw [List.drop_zero] at hm
      simp only [searchMMYYYY, hm]
    | succ i' =>
      have h0 : takeMMYYYY (c :: cs) = none := hf 0 (Nat.succ_pos i')
      simp only [searchMMYYYY, h0]
      exact ih i' (fun j hj => hf (j + 1) (Nat.succ_lt_succ hj)) hm

/-- C9: for every page text, the date resolver returns the first
substring matching two digits, a slash and four digits, and returns the
sentinel `"N/D"` when no position of the text matches. -/
theorem extrair_data_spec (text : String) :
    ((∀ i, takeMMYYYY (text.toList.drop i) = none) → extrair_data_da_pagina text = "N/D") ∧
    (∀ i s, (∀ j, j < i → takeMMYYYY (text.toList.drop j) = none) →
      takeMMYYYY (text.toList.drop i) = some s → extrair_data_da_pagina text = s) := by
  constructor
  · intro h
    unfold extrair_data_da_pagina
    rw [searchMMYYYY_eq_none text.toList h]
  · intro i s hf hm
    unfold extrair_data_da_pagina
    rw [searchMMYYYY_first text.toList i s hf hm]

theorem extrair_data_spec_witness :
    extrair_data_da_pagina "ab 12/2023 e 01/2024" = "12/2023" :=
  (extrair_data_spec "ab 12/2023 e 01/2024").2 3 "12/2023" (by decide) (by decide)

/-- C4: for every data row of a grid, multi-line expansion emits exactly
`k` output rows, where `k` is the maximum number of
line-break-separated segments over that row's cells, and output row `i`
takes each column's `i`-th segment trimmed, or the empty string when
that cell has fewer than `i + 1` segments; in particular a row with
cells `"A\nB"` and `"1\n2"` expands to exactly `(A,1)` then `(B,2)` in
that order. -/
theorem separar_linhas_spec (row : List String) (_hrow : row ≠ []) :
    (expandRow row).length = maxSegs row ∧
    (∀ i, i < maxSegs row →
      (expandRow row).getD i [] =
        row.map (fun s => pyStrip ((splitNewlines s).getD i ""))) ∧
    expandRow ["A\nB", "1\n2"] = [["A", "1"], ["B", "2"]] := by
  refine ⟨by simp [expandRow], ?_, by decide⟩
  intro i hi
  unfold expandRow
  rw [List.getD_eq_getElem?_getD, List.getElem?_map, List.getElem?_range hi]
  show (row.map (fun s => splitNewlines s)).map _ = _
  rw [List.map_map]
  apply List.map_congr_left
  intro s _
  by_cases hs : i < (splitNewlines s).length
  · show dite _ _ _ = _
    rw [dif_pos hs, List.getD_eq_getElem?_getD, List.getElem?_eq_getElem hs]
    rfl
  · show dite _ _ _ = _
    have hnone : (splitNewlines s).getD i "" = "" := by
      rw [List.getD_eq_getElem?_getD, List.getElem?_eq_none (Nat.le_of_not_lt hs)]
      rfl
    rw [dif_neg hs, hnone]
    decide

theorem separar_linhas_spec_witness :
    (expandRow ["A\nB", "1\n2"]).length = maxSegs ["A\nB", "1\n2"] ∧
    (∀ i, i < maxSegs ["A\nB", "1\n2"] →
      (expandRow ["A\nB", "1\n2"]).getD i [] =
        ["A\nB", "1\n2"].map (fun s => pyStrip ((splitNewlines s).getD i ""))) ∧
    expandRow ["A\nB", "1\n2"] = [["A", "1"], ["B", "2"]] :=
  separar_linhas_spec ["A\nB", "1\n2"] (by decide)

/-- C5 (code bug): the spec requires at least 6 columns, canonical names
assigned to the first 6, and a silent skip below 6.  On a table with
exactly 6 columns and on one with fewer the code behaves as specified,
but on a table with more than 6 columns the assignment
`df.columns = [...][:df.shape[1]]` pairs a 6-name list with a wider
frame and raises a length-mismatch `ValueError`, which the enclosing
`try` converts into `None` for the whole document instead of
processing the table. -/
theorem processTable_column_count :
    processTable ⟨["0", "1", "2", "3", "4", "5", "6"],
      [["DESCRIÇÃO", "a", "b", "c", "d", "e", "f"],
       ["x1", "x2", "x3", "x4", "x5", "x6", "x7"]]⟩ 1 "01/2020"
      = Except.error "Length mismatch" ∧
    processTable ⟨["0", "1", "2", "3", "4", "5"],
      [["DESCRIÇÃO", "a", "b", "c", "d", "e"],
       ["x1", "x2", "x3", "x4", "x5", "x6"]]⟩ 1 "01/2020"
      = Except.ok (some ⟨["DATA", "Descrição", "PVD", "COD", "BASE", "VALOR UNITÁRIO", "TOTAL",
          "Competência"],
          [["01/2020", "x1", "x2", "x3", "x4", "x5", "x6", "Página 1"]]⟩) ∧
    processTable ⟨["0", "1", "2", "3", "4"],
      [["DESCRIÇÃO", "a", "b", "c", "d"],
       ["x1", "x2", "x3", "x4", "x5"]]⟩ 1 "01/2020"
      = Except.ok none :=
  ⟨rfl, rfl, rfl⟩

/-! ## Claim theorems: RubricMatcher -/

theorem lev2Fuel_self (fuel : Nat) :
    ∀ xs : List Char, xs.length + xs.length ≤ fuel → lev2Fuel fuel xs xs = 0 := by
  induction fuel with
  | zero =>
    intro xs _
    rfl
  | succ f ih =>
    intro xs h
    cases xs with
    | nil => rfl
    | cons x t =>
      have ht : t.length + t.length ≤ f := by
        simp only [List.length_cons] at h
        omega
      simp [lev2Fuel, ih t ht]

theorem lev2_self (xs : List Char) : lev2 xs xs = 0 :=
  lev2Fuel_self (xs.length + xs.length) xs le_rfl

theorem fuzzScore_self (s : String) : fuzzScore s s = 100 := by
  unfold fuzzScore
  by_cases h : s.toList.length + s.toList.length = 0
  · rw [if_pos h]
  · rw [if_neg h, lev2_self, Nat.sub_zero]
    exact Nat.div_eq_of_lt_le (by omega) (by omega)

theorem fuzzScore_le_100 (a b : String) : fuzzScore a b ≤ 100 := by
  unfold fuzzScore
  by_cases h : a.toList.length + b.toList.length = 0
  · rw [if_pos h]
  · rw [if_neg h]
    have hsub : a.toList.length + b.toList.length - lev2 a.toList b.toList ≤
        a.toList.length + b.toList.length := Nat.sub_le _ _
    have hdiv : ((a.toList.length + b.toList.length - lev2 a.toList b.toList) * 200 +
        (a.toList.length + b.toList.length)) / (2 * (a.toList.length + b.toList.length)) < 101 :=
      (Nat.div_lt_iff_lt_mul (by omega)).mpr (by omega)
    omega

theorem le_bestScore_of_mem (q r : String) (rs : List String) (h : r ∈ rs) :
    fuzzScore q r ≤ bestScore q rs := by
  induction rs with
  | nil => cases h
  | cons a as ih =>
    cases h with
    | head => exact Nat.le_max_left _ _
    | tail _ hmem => exact le_trans (ih hmem) (Nat.le_max_right _ _)

theorem bestScore_le_100 (q : String) (rs : List String) : bestScore q rs ≤ 100 := by
  induction rs with
  | nil => exact Nat.zero_le _
  | cons a as ih => exact max_le (fuzzScore_le_100 q a) ih

theorem extractOne_eq_bestScore (q : String) :
    ∀ rs : List String, rs ≠ [] → ∃ b, extractOne q rs = some (b, bestScore q rs) := by
  intro rs
  induction rs with
  | nil => intro h; exact absurd rfl h
  | cons r rs ih =>
    intro _
    by_cases hrs : rs = []
    · subst hrs
      exact ⟨r, by simp [extractOne, bestScore]⟩
    · obtain ⟨b, hb⟩ := ih hrs
      by_cases hge : fuzzScore q r ≥ bestScore q rs
      · refine ⟨r, ?_⟩
        simp only [extractOne, hb, bestScore]
        rw [if_pos hge, Nat.max_eq_left hge]
      · refine ⟨b, ?_⟩
        simp only [extractOne, hb, bestScore]
        rw [if_neg hge, Nat.max_eq_right (Nat.le_of_not_le hge)]

/-- C6: for every table and threshold T, the matcher scores each
description against every vocabulary entry (scores lie in 0-100), keeps
exactly the rows whose best score reaches T, acceptance is uniform over
rows sharing a description, and a description exactly equal to a
vocabulary entry (score 100) is accepted whenever T ≤ 100. -/
theorem cruzar_matching_spec (df : DF) (rub : List String) (T : Nat)
    (hdf : df.rows ≠ []) (hrub : rub ≠ []) :
    (cruzar_descontos_com_rubricas df rub T).rows =
      df.rows.filter (fun r => decide (T ≤ bestScore (getCell df.cols r "DESCRIÇÃO") rub)) ∧
    (∀ q, bestScore q rub ≤ 100) ∧
    (∀ r, r ∈ df.rows → getCell df.cols r "DESCRIÇÃO" ∈ rub → T ≤ 100 →
      r ∈ (cruzar_descontos_com_rubricas df rub T).rows) ∧
    (∀ r r2, r ∈ df.rows → r2 ∈ df.rows →
      getCell df.cols r "DESCRIÇÃO" = getCell df.cols r2 "DESCRIÇÃO" →
      (r ∈ (cruzar_descontos_com_rubricas df rub T).rows ↔
        r2 ∈ (cruzar_descontos_com_rubricas df rub T).rows)) := by
  have hcond : (df.rows.isEmpty || rub.isEmpty) = false := by
    simp [List.isEmpty_iff, hdf, hrub]
  have hrows : (cruzar_descontos_com_rubricas df rub T).rows =
      df.rows.filter (fun r =>
        match extractOne (getCell df.cols r "DESCRIÇÃO") rub with
        | some p => decide (T ≤ p.2)
        | none => false) := by
    unfold cruzar_descontos_com_rubricas
    rw [if_neg (by simp [hcond])]
  have hfilter : df.rows.filter (fun r =>
        match extractOne (getCell df.cols r "DESCRIÇÃO") rub with
        | some p => decide (T ≤ p.2)
        | none => false) =
      df.rows.filter (fun r => decide (T ≤ bestScore (getCell df.cols r "DESCRIÇÃO") rub)) := by
    apply List.filter_congr
    intro r _
    obtain ⟨b, hb⟩ := extractOne_eq_bestScore (getCell df.cols r "DESCRIÇÃO") rub hrub
    rw [hb]
  have heq := hrows.trans hfilter
  refine ⟨heq, fun q => bestScore_le_100 q rub, ?_, ?_⟩
  · intro r hr hmem hT
    rw [heq]
    refine List.mem_filter.mpr ⟨hr, decide_eq_true ?_⟩
    have h100 : (100 : Nat) ≤ bestScore (getCell df.cols r "DESCRIÇÃO") rub :=
      fuzzScore_self (getCell df.cols r "DESCRIÇÃO") ▸
        le_bestScore_of_mem (getCell df.cols r "DESCRIÇÃO") (getCell df.cols r "DESCRIÇÃO")
          rub hmem
    exact le_trans hT h100
  · intro r r2 hr hr2 hsame
    rw [heq]
    simp only [List.mem_filter]
    constructor
    · rintro ⟨-, hp⟩
      exact ⟨hr2, by rwa [hsame] at hp⟩
    · rintro ⟨-, hp⟩
      exact ⟨hr, by rwa [← hsame] at hp⟩

theorem cruzar_matching_spec_witness :
    ["ABC", "1,00"] ∈ (cruzar_descontos_com_rubricas
      ⟨["DESCRIÇÃO", "DESCONTOS"], [["ABC", "1,00"], ["XYZ", "2,00"]]⟩ ["ABC"] 85).rows :=
  (cruzar_matching_spec ⟨["DESCRIÇÃO", "DESCONTOS"], [["ABC", "1,00"], ["XYZ", "2,00"]]⟩
      ["ABC"] 85 (by decide) (by decide)).2.2.1 ["ABC", "1,00"]
    (by decide) (by decide) (by decide)

/-- C7: for every threshold and every input, an empty line-item table
or an empty vocabulary makes the matcher return an empty DataFrame (a
total function of its inputs, never an error). -/
theorem cruzar_degenerate_spec (df : DF) (rub : List String) (T : Nat)
    (h : df.rows = [] ∨ rub = []) :
    cruzar_descontos_com_rubricas df rub T = ⟨[], []⟩ := by
  unfold cruzar_descontos_com_rubricas
  rcases h with h | h <;> simp [h]

theorem cruzar_degenerate_spec_witness :
    cruzar_descontos_com_rubricas ⟨["DESCRIÇÃO", "DESCONTOS"], [["x", "1,00"]]⟩ [] 99
      = ⟨[], []⟩ :=
  cruzar_degenerate_spec ⟨["DESCRIÇÃO", "DESCONTOS"], [["x", "1,00"]]⟩ [] 99 (Or.inr rfl)

/-! ## Claim theorems: CurrencyCodec round trip -/

/-- C1 counterexample: the arithmetic parse (comma-to-dot, then decimal
parse) fails on the thousands-separated canonical PT-BR string
`"1.234,56"` (comma-to-dot yields `"1.234.56"`, which has two dots), so
it falls back to 0.0 and the composition with the PT-BR two-decimal
formatter yields `"0,00"`, not `"1.234,56"`. -/
theorem format_roundtrip_counterexample :
    to_float "1.234,56" = ⟨0, 1⟩ ∧
    format_brl_num (to_float "1.234,56") = "0,00" ∧
    format_brl_num (to_float "1.234,56") ≠ "1.234,56" :=
  ⟨by decide, by decide, by decide⟩

/-- C1 amended: the arithmetic parse round-trips through the PT-BR
formatter only for comma-decimal strings without thousands separators
(e.g. `"1234,56"`); for the canonical PT-BR string `"1.234,56"` the
round trip that holds is the cents-shift display convention of
`formatar_valor_brl`, while the arithmetic composition produces
`"0,00"`. -/
theorem format_roundtrip_amended :
    format_brl_num (to_float "1234,56") = "1.234,56" ∧
    formatar_valor_brl "1.234,56" = "1.234,56" ∧
    format_brl_num (to_float "1.234,56") = "0,00" :=
  ⟨by decide, by decide, by decide⟩
